import Mathlib

/-!
A shallow embedding of the verdict-evaluation core of the CVP2
authentication test tool (catt.py): the transcript evaluation of
Test._run_program, the per-case verdict logic of Test.run and
VerifyServerTest.run, and the sequential suite driver Tester.run_tests.
Transcripts are byte strings modelled as lists of characters; the
behaviour of the external OpenSSL subprocess is an explicit outcome
value fed to the embedded functions.
-/

set_option autoImplicit false

/-- Bytes of a transcript, modelled as a list of characters. -/
abbrev Bytes := List Char

/-- Decides whether a character is an ASCII digit, as the regex class [0-9]. -/
def isDigitChar (c : Char) : Bool := decide ('0' ≤ c) && decide (c ≤ '9')

/-- Decides whether the first list is an initial segment of the second. -/
def startsWith : Bytes → Bytes → Bool
  | [], _ => true
  | _ :: _, [] => false
  | a :: as, b :: bs => a == b && startsWith as bs

/-- Decides whether the pattern occurs as a contiguous run inside the
transcript, as the Python bytes membership test (pat in s). -/
def containsB (pat : Bytes) : Bytes → Bool
  | [] => pat.isEmpty
  | c :: cs => startsWith pat (c :: cs) || containsB pat cs

/-- Splits the transcript into segments at each newline character; these
segments are the lines seen by a MULTILINE regex search. -/
def linesOf : Bytes → List Bytes
  | [] => [[]]
  | c :: cs =>
      if c = '\n' then [] :: linesOf cs
      else
        match linesOf cs with
        | [] => [[c]]
        | l :: ls => (c :: l) :: ls

/-- Decides the tail of the status pattern after the protocol version and
dot: one or more digits, a space, one or more digits, a space, then
anything up to the end of the line.  This is the greedy semantics of the
tail of the source regex HTTP_LINE_REGEX, which reads
HTTP/[1-9] dot [0-9]+ space ([0-9]+ space .*) anchored to a whole line. -/
def statusLineTail (rest : Bytes) : Bool :=
  let ds := rest.takeWhile isDigitChar
  let r1 := rest.dropWhile isDigitChar
  !ds.isEmpty &&
    match r1 with
    | ' ' :: r2 =>
        let cs := r2.takeWhile isDigitChar
        let r3 := r2.dropWhile isDigitChar
        !cs.isEmpty &&
          match r3 with
          | ' ' :: _ => true
          | _ => false
    | _ => false

/-- Decides whether one line of the transcript matches
Test.HTTP_LINE_REGEX (a full-line match, since the pattern is anchored
at both ends with the MULTILINE flag). -/
def isHTTPStatusLine : Bytes → Bool
  | 'H' :: 'T' :: 'T' :: 'P' :: '/' :: c :: '.' :: rest =>
      decide ('1' ≤ c) && decide (c ≤ '9') && statusLineTail rest
  | _ => false

/-- The first line of the transcript matching the status regex: group(0)
of the match found by HTTP_LINE_REGEX.search on the raw output. -/
def firstStatusLine (out : Bytes) : Option Bytes :=
  (linesOf out).find? isHTTPStatusLine

/-- Captured group(1) of the status regex: the text of the matched line
after the first space following the protocol version digits. -/
def statusGroup : Bytes → Bytes
  | 'H' :: 'T' :: 'T' :: 'P' :: '/' :: _ :: '.' :: rest =>
      (rest.dropWhile isDigitChar).drop 1
  | _ => []

/-- The part of the transcript strictly before the first occurrence of
the pattern, as the Python expression output.split(pat, 1)[0] when pat
occurs in output. -/
def splitBefore (pat : Bytes) : Bytes → Bytes
  | [] => []
  | c :: cs => if startsWith pat (c :: cs) then [] else c :: splitBefore pat cs

/-- The portion of the transcript used for marker searches: everything
before the first status line when one is present, the whole transcript
otherwise. -/
def preResponse (out : Bytes) : Bytes :=
  match firstStatusLine out with
  | some l => splitBefore l out
  | none => out

/-- Marker printed by an OpenSSL build lacking the -dtcp option. -/
def markerUnknownOption : Bytes := "unknown option -dtcp".data

/-- Marker showing the always-succeed validation hook ran. -/
def markerSignData : Bytes := "Inside DTCPIPAuth_SignData".data

/-- Marker of successful generic X.509 verification. -/
def markerVerifyOk : Bytes := "Verify return code: 0 (ok)".data

/-- Marker of successful DTCP remote certificate verification. -/
def markerRemoteCertOk : Bytes := "DTCPIPAuth_VerifyRemoteCert returning 0".data

/-- Marker showing the CVP2 bit was observed on the remote certificate. -/
def markerCvp2BitSet : Bytes := "CVP2_DTCIP_VerifyRemoteCert(): CVP2 bit set".data

/-- Messages the tool prints while evaluating a case, one constructor per
print statement of the evaluation paths of catt.py. -/
inductive Msg where
  | connectionFailed
  | connectionSucceeded
  | httpStatus (s : Bytes)
  | noHttpResponse
  | requiredKeyNotGiven
  | testSkipped
  | opensslNoDtcpSupport
  | opensslSetupIncorrect
  | testFailed
  | testSucceeded
  | x509VerifyOk
  | x509FailCheckDtcp
  | dtcpCertInvalid
  | dtcpCertValid
  | cvp2BitNotSet
  | cvp2BitSet
  deriving DecidableEq

/-- Terminal classification of one test case execution.  In the source,
SKIPPED corresponds to printing TEST SKIPPED, ENVIRONMENT_ERROR to an
early return after one of the two sanity-check ERROR messages, and
PASS and FAIL to printing TEST SUCCEEDED and TEST FAILED. -/
inductive Verdict where
  | SKIPPED
  | ENVIRONMENT_ERROR
  | PASS
  | FAIL
  deriving DecidableEq

/-- Result of one terminated subprocess: its exit status as returned by
wait, and its merged stdout and stderr bytes. -/
structure ProcResult where
  returnCode : Int
  output : Bytes
  deriving DecidableEq

/-- Value of Test._run_program: the (possibly truncated) transcript, the
fail flag, and the messages printed on the way. -/
structure RunProgResult where
  output : Bytes
  fail : Bool
  msgs : List Msg
  deriving DecidableEq

/-- One Test object of catt.py: constructor arguments of Test.__init__. -/
structure TestCase where
  name : String
  log_name : String
  library : String
  key : Option String
  should_succeed : Bool
  deriving DecidableEq

/-- Configuration fields of the Tester that reach the evaluation: the
openssl executable path, the CA file, and the target host and port (the
port already rendered to a string, as str(port) in the source). -/
structure Cfg where
  debug : Bool
  ca_file : String
  host : String
  port : String
  openssl : String
  deriving DecidableEq

/-- Observable outcome of one case execution: the verdict, the printed
messages, and the argument lists of the subprocess invocations made. -/
structure RunTrace where
  verdict : Verdict
  msgs : List Msg
  invocations : List (List String)
  deriving DecidableEq

/-- The pure content of Test._run_program after the subprocess has
terminated with result res: computes the fail flag from the exit code
and the expectation, searches for the HTTP status line, truncates the
transcript before it when found, and flags a clean exit without a
status line as a failure. -/
def runProgramCore (should : Bool) (res : ProcResult) : RunProgResult :=
  let connMsg : Msg :=
    if res.returnCode ≠ 0 then .connectionFailed else .connectionSucceeded
  let fail0 : Bool := if res.returnCode ≠ 0 then should else !should
  match firstStatusLine res.output with
  | some l =>
      { output := splitBefore l res.output
        fail := fail0
        msgs := [connMsg, .httpStatus (statusGroup l)] }
  | none =>
      if res.returnCode = 0 then
        { output := res.output, fail := true, msgs := [connMsg, .noHttpResponse] }
      else
        { output := res.output, fail := fail0, msgs := [connMsg] }

/-- Argument list built by Test.run for the client-credential cases. -/
def clientArgs (cfg : Cfg) (library key : String) : List String :=
  [cfg.openssl, "s_client", "-host", cfg.host, "-ign_eof",
   "-CAfile", cfg.ca_file,
   "-port", cfg.port, "-dtcp", "-dtcp_dll_path",
   library, "-dtcp_key_storage_dir", key,
   "-purpose", "any"]

/-- Argument list built by VerifyServerTest.run for the first stage. -/
def serverArgs (cfg : Cfg) : List String :=
  [cfg.openssl, "s_client", "-host", cfg.host, "-ign_eof",
   "-port", cfg.port, "-CAfile", cfg.ca_file,
   "-purpose", "any"]

/-- Arguments appended for the second, DTCP-specific stage of
VerifyServerTest.run. -/
def dtcpArgs (library key : String) : List String :=
  ["-dtcp", "-dtcp_dll_path", library, "-dtcp_key_storage_dir", key]

/-- Trace of a skipped case: the source prints that the required key was
not given, prints TEST SKIPPED, and returns before building the
argument list, so no subprocess is invoked. -/
def skippedTrace : RunTrace :=
  { verdict := .SKIPPED
    msgs := [.requiredKeyNotGiven, .testSkipped]
    invocations := [] }

/-- Test.run of catt.py, for a subprocess that terminated with result
res: skip without a key; otherwise evaluate the transcript, gate on the
two environment sanity markers (searched in the truncated transcript),
and derive the verdict from the fail flag. -/
def Test.run (cfg : Cfg) (t : TestCase) (res : ProcResult) : RunTrace :=
  match t.key with
  | none => skippedTrace
  | some k =>
      let args := clientArgs cfg t.library k
      let r := runProgramCore t.should_succeed res
      if containsB markerUnknownOption r.output then
        { verdict := .ENVIRONMENT_ERROR
          msgs := r.msgs ++ [.opensslNoDtcpSupport]
          invocations := [args] }
      else if !(containsB markerSignData r.output) then
        { verdict := .ENVIRONMENT_ERROR
          msgs := r.msgs ++ [.opensslSetupIncorrect]
          invocations := [args] }
      else if r.fail then
        { verdict := .FAIL
          msgs := r.msgs ++ [.testFailed]
          invocations := [args] }
      else
        { verdict := .PASS
          msgs := r.msgs ++ [.testSucceeded]
          invocations := [args] }

/-- VerifyServerTest.run of catt.py, for subprocesses that terminated
with results res1 (first stage) and res2 (second stage, inspected only
when the first stage does not show the generic verification marker).
The source binds the fail flag of the second _run_program call to a
variable named return_code and never reads it; accordingly the final
verdict uses the fail flag of the first run and only the marker content
of the second transcript. -/
def VerifyServerTest.run (cfg : Cfg) (t : TestCase) (res1 res2 : ProcResult) :
    RunTrace :=
  match t.key with
  | none => skippedTrace
  | some k =>
      let args := serverArgs cfg
      let r1 := runProgramCore t.should_succeed res1
      if containsB markerVerifyOk r1.output then
        { verdict := if r1.fail then .FAIL else .PASS
          msgs := r1.msgs ++ [.x509VerifyOk,
            if r1.fail then .testFailed else .testSucceeded]
          invocations := [args] }
      else
        let args2 := args ++ dtcpArgs t.library k
        let r2 := runProgramCore t.should_succeed res2
        let certOk := containsB markerRemoteCertOk r2.output
        let cvp2Ok := containsB markerCvp2BitSet r2.output
        let failA := if !certOk then true else r1.fail
        let msgA : Msg := if !certOk then .dtcpCertInvalid else .dtcpCertValid
        let failB := if !cvp2Ok then true else failA
        let msgB : Msg := if !cvp2Ok then .cvp2BitNotSet else .cvp2BitSet
        { verdict := if failB then .FAIL else .PASS
          msgs := r1.msgs ++ [.x509FailCheckDtcp] ++ r2.msgs ++
            [msgA, msgB, if failB then .testFailed else .testSucceeded]
          invocations := [args, args2] }

/-- Behaviour of one subprocess.Popen call as the source interacts with
it: Popen itself can raise (binary not found or not executable); after
a successful start, communicate is called with no timeout argument and
therefore waits for termination unboundedly, so a process that never
exits blocks the harness forever; only when communicate has returned is
wait called with the WAIT_TIME bound, at which point the process has
already terminated, so the bound never takes effect. -/
inductive PopenOutcome where
  | startFailure
  | neverTerminates
  | terminates (res : ProcResult)
  deriving DecidableEq

/-- Result of executing one case against the subprocess API: a trace, an
exception propagating out of run (nothing in catt.py catches it), or
the harness blocked forever inside communicate. -/
inductive ExecResult (α : Type) where
  | ok (a : α)
  | uncaughtException
  | blockedForever
  deriving DecidableEq

/-- Test.run together with the subprocess API behaviour: the key check
precedes the Popen call, so a missing key never reaches the subprocess;
a start failure raises out of run; a process that never terminates
blocks inside communicate; a terminated process is evaluated by
Test.run. -/
def Test.runE (cfg : Cfg) (t : TestCase) (po : PopenOutcome) :
    ExecResult RunTrace :=
  match t.key with
  | none => .ok skippedTrace
  | some _ =>
      match po with
      | .startFailure => .uncaughtException
      | .neverTerminates => .blockedForever
      | .terminates res => .ok (Test.run cfg t res)

/-- VerifyServerTest.run together with the subprocess API behaviour.
When the first stage shows the generic verification marker the second
Popen call is never made, so its behaviour is irrelevant; the first
stage result is passed twice to the pure run function, which does not
inspect its second argument on that branch. -/
def VerifyServerTest.runE (cfg : Cfg) (t : TestCase)
    (po1 po2 : PopenOutcome) : ExecResult RunTrace :=
  match t.key with
  | none => .ok skippedTrace
  | some _ =>
      match po1 with
      | .startFailure => .uncaughtException
      | .neverTerminates => .blockedForever
      | .terminates res1 =>
          if containsB markerVerifyOk (runProgramCore t.should_succeed res1).output then
            .ok (VerifyServerTest.run cfg t res1 res1)
          else
            match po2 with
            | .startFailure => .uncaughtException
            | .neverTerminates => .blockedForever
            | .terminates res2 => .ok (VerifyServerTest.run cfg t res1 res2)

/-- One entry of the Tester suite: either the server verification case
or a plain client-credential case. -/
inductive SuiteCase where
  | verifyServer (t : TestCase)
  | client (t : TestCase)
  deriving DecidableEq

/-- Executes one suite entry; a client case makes at most one Popen call
and ignores the second behaviour. -/
def runCaseE (cfg : Cfg) : SuiteCase → PopenOutcome → PopenOutcome →
    ExecResult RunTrace
  | .client t, po, _ => Test.runE cfg t po
  | .verifyServer t, po1, po2 => VerifyServerTest.runE cfg t po1 po2

/-- Tester.run_tests of catt.py: runs the cases in order.  Nothing in
the loop catches exceptions, so an exception raised while running one
case propagates and the remaining cases never run; likewise a case
blocked forever blocks the whole suite. -/
def runSuite (cfg : Cfg) :
    List (SuiteCase × PopenOutcome × PopenOutcome) →
    ExecResult (List RunTrace)
  | [] => .ok []
  | (c, po1, po2) :: rest =>
      match runCaseE cfg c po1 po2 with
      | .ok tr =>
          match runSuite cfg rest with
          | .ok trs => .ok (tr :: trs)
          | .uncaughtException => .uncaughtException
          | .blockedForever => .blockedForever
      | .uncaughtException => .uncaughtException
      | .blockedForever => .blockedForever

/-- The five cases built by Tester.__init__, in declared order. -/
def Tester.tests
    (production_library_cvp2 production_library_no_cvp2
     test_library_cvp2 test_library_no_cvp2 : String)
    (production_key_cvp2 production_key_no_cvp2
     test_key_cvp2 test_key_no_cvp2 : Option String) : List SuiteCase :=
  [SuiteCase.verifyServer ⟨"Verify Server X.509 or DTCP certificate",
      "server-verify", production_library_cvp2, production_key_cvp2, true⟩,
   SuiteCase.client ⟨"Client DTCP Production Key With CVP2 Bit",
      "production-cvp2", production_library_cvp2, production_key_cvp2, true⟩,
   SuiteCase.client ⟨"Client DTCP Production Key Without CVP2 Bit",
      "production-no-cvp2", production_library_no_cvp2, production_key_no_cvp2, false⟩,
   SuiteCase.client ⟨"Client DTCP Test Key With CVP2 Bit",
      "test-cvp2", test_library_cvp2, test_key_cvp2, false⟩,
   SuiteCase.client ⟨"Client DTCP Test Key Without CVP2 Bit",
      "test-no-cvp2", test_library_no_cvp2, test_key_no_cvp2, false⟩]

/-- Concrete configuration used by the evaluation witnesses. -/
def cfgEx : Cfg := ⟨false, "ca.pem", "server.test", "443", "openssl"⟩

/-- Concrete client case expecting the connection to be rejected. -/
def caseEx : TestCase :=
  ⟨"Client DTCP Test Key With CVP2 Bit", "test-cvp2", "lib.so",
   some "keys", false⟩

/-- Concrete client case expecting the connection to be accepted. -/
def caseW : TestCase :=
  ⟨"Client DTCP Production Key With CVP2 Bit", "production-cvp2", "lib.so",
   some "keys", true⟩

/-- Concrete client case with no credential directory supplied. -/
def caseNoKey : TestCase :=
  ⟨"Client DTCP Test Key With CVP2 Bit", "test-cvp2", "lib.so",
   none, false⟩

/-- Concrete server verification case, as built by Tester.__init__. -/
def vsCase : TestCase :=
  ⟨"Verify Server X.509 or DTCP certificate", "server-verify", "lib.so",
   some "keys", true⟩

/-- Clean exit whose transcript holds the sanity marker but no status line. -/
def resEx : ProcResult := ⟨0, "Inside DTCPIPAuth_SignData".data⟩

/-- Clean exit with the sanity marker followed by a status line. -/
def resW : ProcResult := ⟨0, "Inside DTCPIPAuth_SignData\nHTTP/1.0 200 OK".data⟩

/-- Terminated subprocess with empty output. -/
def resDummy : ProcResult := ⟨0, []⟩

/-- First-stage transcript showing generic X.509 verification success
before the status line. -/
def resV1 : ProcResult :=
  ⟨0, "Verify return code: 0 (ok)\nHTTP/1.0 200 OK".data⟩

/-- Clean exit whose transcript holds only the unknown-option marker. -/
def resBad : ProcResult := ⟨0, "unknown option -dtcp".data⟩

/-- Second-stage transcript with both DTCP markers before a status line. -/
def resS2 : ProcResult :=
  ⟨0, ("DTCPIPAuth_VerifyRemoteCert returning 0\n" ++
       "CVP2_DTCIP_VerifyRemoteCert(): CVP2 bit set\n" ++
       "HTTP/1.0 200 OK").data⟩

/-- Clean exit whose transcript holds both DTCP markers but no status
line. -/
def resS2NoStatus : ProcResult :=
  ⟨0, ("DTCPIPAuth_VerifyRemoteCert returning 0\n" ++
       "CVP2_DTCIP_VerifyRemoteCert(): CVP2 bit set").data⟩

/-- Like resW but with extra marker text after the status line. -/
def resC7b : ProcResult :=
  ⟨0, ("Inside DTCPIPAuth_SignData\nHTTP/1.0 200 OK\n" ++
       "Verify return code: 0 (ok) and unknown option -dtcp").data⟩

/-- Like resS2 but with extra marker text after the status line. -/
def resC72b : ProcResult :=
  ⟨0, ("DTCPIPAuth_VerifyRemoteCert returning 0\n" ++
       "CVP2_DTCIP_VerifyRemoteCert(): CVP2 bit set\n" ++
       "HTTP/1.0 200 OK\nunknown option -dtcp").data⟩

/-- Concrete two-entry suite whose first case fails to start. -/
def suiteEx : List (SuiteCase × PopenOutcome × PopenOutcome) :=
  [(SuiteCase.client caseEx, PopenOutcome.startFailure,
      PopenOutcome.startFailure),
   (SuiteCase.client caseW, PopenOutcome.terminates resW,
      PopenOutcome.terminates resW)]

/-- Verdict component of the non-skipped branch of Test.run, as a
function of the expectation and the subprocess result. -/
def clientVerdict (should : Bool) (res : ProcResult) : Verdict :=
  let r := runProgramCore should res
  if containsB markerUnknownOption r.output then .ENVIRONMENT_ERROR
  else if !(containsB markerSignData r.output) then .ENVIRONMENT_ERROR
  else if r.fail then .FAIL else .PASS

/-- Verdict component of the non-skipped branch of VerifyServerTest.run,
with the cumulative fail flag of the second stage written as one
disjunction. -/
def serverVerdict (should : Bool) (res1 res2 : ProcResult) : Verdict :=
  let r1 := runProgramCore should res1
  if containsB markerVerifyOk r1.output then
    if r1.fail then .FAIL else .PASS
  else
    let r2 := runProgramCore should res2
    if (r1.fail || !(containsB markerRemoteCertOk r2.output)) ||
        !(containsB markerCvp2BitSet r2.output) then .FAIL else .PASS

theorem runProgramCore_output (s : Bool) (res : ProcResult) :
    (runProgramCore s res).output = preResponse res.output := by
  unfold runProgramCore preResponse
  cases h : firstStatusLine res.output
  · simp only [h]
    split <;> rfl
  · simp only [h]

theorem runProgramCore_fail (s : Bool) (res : ProcResult) :
    (runProgramCore s res).fail =
      ((if res.returnCode ≠ 0 then s else !s) ||
        ((res.returnCode == 0) && (firstStatusLine res.output).isNone)) := by
  unfold runProgramCore
  cases h : firstStatusLine res.output
  · by_cases hrc : res.returnCode = 0 <;> simp [h, hrc]
  · simp [h]

theorem clientRun_verdict (cfg : Cfg) (t : TestCase) (k : String)
    (res : ProcResult) (hk : t.key = some k) :
    (Test.run cfg t res).verdict = clientVerdict t.should_succeed res := by
  unfold Test.run clientVerdict
  simp only [hk]
  by_cases h1 : containsB markerUnknownOption
      (runProgramCore t.should_succeed res).output = true
  · simp [h1]
  · by_cases h2 : containsB markerSignData
        (runProgramCore t.should_succeed res).output = true
    · by_cases h3 : (runProgramCore t.should_succeed res).fail = true
      · simp [h1, h2, h3]
      · simp [h1, h2, h3]
    · simp [h1, h2]

theorem serverRun_verdict (cfg : Cfg) (t : TestCase) (k : String)
    (res1 res2 : ProcResult) (hk : t.key = some k) :
    (VerifyServerTest.run cfg t res1 res2).verdict =
      serverVerdict t.should_succeed res1 res2 := by
  unfold VerifyServerTest.run serverVerdict
  simp only [hk]
  by_cases hx : containsB markerVerifyOk
      (runProgramCore t.should_succeed res1).output = true
  · by_cases hf : (runProgramCore t.should_succeed res1).fail = true
    · simp [hx, hf]
    · simp [hx, hf]
  · by_cases hc : containsB markerRemoteCertOk
        (runProgramCore t.should_succeed res2).output = true
    · by_cases hb : containsB markerCvp2BitSet
          (runProgramCore t.should_succeed res2).output = true
      · by_cases hf : (runProgramCore t.should_succeed res1).fail = true
        · simp [hx, hc, hb, hf]
        · simp [hx, hc, hb, hf]
      · simp [hx, hc, hb]
    · simp [hx, hc]

/-- C1 counterexample: a case with expectedSuccess false whose subprocess
exits 0 without a status line and whose transcript holds both sanity
markers correctly (the unknown-option marker absent, the sign-data
marker present).  Here (exitCode equals 0 and a status line is present)
is false and equals expectedSuccess, so the claim demands PASS, but the
code renders FAIL. -/
theorem c1_pass_rule_counterexample :
    ((resEx.returnCode == 0) && (firstStatusLine resEx.output).isSome)
        = caseEx.should_succeed
    ∧ containsB markerUnknownOption
        (runProgramCore caseEx.should_succeed resEx).output = false
    ∧ containsB markerSignData
        (runProgramCore caseEx.should_succeed resEx).output = true
    ∧ (Test.run cfgEx caseEx resEx).verdict = Verdict.FAIL
    ∧ (Test.run cfgEx caseEx resEx).verdict ≠ Verdict.PASS := by
  refine ⟨by decide, by decide, by decide, by decide, by decide⟩

/-- C1 amended: for a non-skipped case whose transcript passes the two
sanity checks, the verdict is PASS iff (exitCode equals 0 and a status
line is present) equals expectedSuccess, except that a clean exit with
no status line yields FAIL even when expectedSuccess is false;
otherwise the verdict is FAIL. -/
theorem c1_pass_rule_amended (cfg : Cfg) (t : TestCase) (k : String)
    (res : ProcResult) (hk : t.key = some k)
    (h1 : containsB markerUnknownOption
        (runProgramCore t.should_succeed res).output = false)
    (h2 : containsB markerSignData
        (runProgramCore t.should_succeed res).output = true) :
    (Test.run cfg t res).verdict =
      if (((res.returnCode == 0) && (firstStatusLine res.output).isSome)
            == t.should_succeed)
          && !((res.returnCode == 0) && (firstStatusLine res.output).isNone)
      then Verdict.PASS else Verdict.FAIL := by
  rw [clientRun_verdict cfg t k res hk]
  unfold clientVerdict
  simp only [h1, h2, Bool.not_true, Bool.false_eq_true, if_false,
    Bool.true_eq_false]
  rw [runProgramCore_fail]
  by_cases hrc : res.returnCode = 0 <;>
    cases hs : firstStatusLine res.output <;>
      cases hsh : t.should_succeed <;>
        simp [hrc, hs, hsh]

/-- C1 amended witness at a concrete input: expectedSuccess true, clean
exit with a status line, sanity markers fine, verdict PASS. -/
theorem c1_pass_rule_amended_witness :
    caseW.key = some "keys"
    ∧ containsB markerUnknownOption
        (runProgramCore caseW.should_succeed resW).output = false
    ∧ containsB markerSignData
        (runProgramCore caseW.should_succeed resW).output = true
    ∧ (Test.run cfgEx caseW resW).verdict =
        (if (((resW.returnCode == 0) && (firstStatusLine resW.output).isSome)
              == caseW.should_succeed)
            && !((resW.returnCode == 0) && (firstStatusLine resW.output).isNone)
         then Verdict.PASS else Verdict.FAIL) :=
  ⟨rfl, by decide, by decide,
    c1_pass_rule_amended cfgEx caseW "keys" resW rfl (by decide) (by decide)⟩

/-- C2 counterexample: in the server verification case, the second-stage
subprocess exits 0 with no status line in its transcript, so its run is
marked failed by _run_program, yet that fail flag is discarded into the
never-read return_code variable and the overall verdict is PASS (the
first stage connected cleanly with a status line and without the
generic verification marker, and the second transcript holds both DTCP
markers). -/
theorem c2_no_response_counterexample :
    resS2NoStatus.returnCode = 0
    ∧ firstStatusLine resS2NoStatus.output = none
    ∧ (runProgramCore vsCase.should_succeed resS2NoStatus).fail = true
    ∧ Msg.noHttpResponse ∈ (runProgramCore vsCase.should_succeed resS2NoStatus).msgs
    ∧ (VerifyServerTest.run cfgEx vsCase resW resS2NoStatus).verdict =
        Verdict.PASS := by
  refine ⟨rfl, by decide, by decide, by decide, by decide⟩

/-- C2 amended: a clean exit without a status line always marks that run
as failed with the dedicated no-response message; the case verdict is
then never PASS for a client-credential case (any expectedSuccess),
nor for the server verification case as constructed in the suite
(expectedSuccess true) when its first-stage transcript lacks a status
line, whatever the second stage produces.  The exception forced by the
counterexample is the second stage of the server verification case,
whose fail flag is discarded. -/
theorem c2_no_response_never_pass :
    (∀ (should : Bool) (res : ProcResult), res.returnCode = 0 →
        firstStatusLine res.output = none →
        (runProgramCore should res).fail = true
        ∧ Msg.noHttpResponse ∈ (runProgramCore should res).msgs)
    ∧ (∀ (cfg : Cfg) (t : TestCase) (k : String) (res : ProcResult),
        t.key = some k → res.returnCode = 0 →
        firstStatusLine res.output = none →
        (Test.run cfg t res).verdict ≠ Verdict.PASS)
    ∧ (∀ (cfg : Cfg) (t : TestCase) (k : String) (res1 res2 : ProcResult),
        t.key = some k → t.should_succeed = true →
        firstStatusLine res1.output = none →
        (VerifyServerTest.run cfg t res1 res2).verdict ≠ Verdict.PASS) := by
  refine ⟨?_, ?_, ?_⟩
  · intro should res h0 hn
    constructor
    · simp [runProgramCore, hn, h0]
    · simp [runProgramCore, hn, h0]
  · intro cfg t k res hk h0 hn
    rw [clientRun_verdict cfg t k res hk]
    unfold clientVerdict
    have hf : (runProgramCore t.should_succeed res).fail = true := by
      simp [runProgramCore, hn, h0]
    by_cases h1 : containsB markerUnknownOption
        (runProgramCore t.should_succeed res).output = true
    · simp [h1]
    · by_cases h2 : containsB markerSignData
          (runProgramCore t.should_succeed res).output = true
      · simp [h1, h2, hf]
      · simp [h1, h2]
  · intro cfg t k res1 res2 hk hsh hn
    rw [serverRun_verdict cfg t k res1 res2 hk]
    unfold serverVerdict
    have hf1 : (runProgramCore t.should_succeed res1).fail = true := by
      rw [runProgramCore_fail, hsh, hn]
      by_cases hrc : res1.returnCode = 0 <;> simp [hrc]
    by_cases hx : containsB markerVerifyOk
        (runProgramCore t.should_succeed res1).output = true
    · simp [hx, hf1]
    · simp [hx, hf1]

/-- C2 witness: concrete clean exit with no status line is never PASS,
for a client case and for the suite server verification case. -/
theorem c2_no_response_never_pass_witness :
    caseEx.key = some "keys" ∧ resEx.returnCode = 0
    ∧ firstStatusLine resEx.output = none
    ∧ (Test.run cfgEx caseEx resEx).verdict ≠ Verdict.PASS
    ∧ (VerifyServerTest.run cfgEx vsCase resEx resDummy).verdict ≠ Verdict.PASS :=
  ⟨rfl, rfl, by decide,
    c2_no_response_never_pass.2.1 cfgEx caseEx "keys" resEx rfl rfl (by decide),
    c2_no_response_never_pass.2.2 cfgEx vsCase "keys" resEx resDummy rfl rfl
      (by decide)⟩

/-- C3 counterexample: the server verification case of the suite renders
a PASS verdict on a transcript that holds neither sanity marker, so the
sanity gate does not cover every case in the suite.  The whole first
stage transcript (the only subprocess output of this execution, since
the generic verification marker is present) lacks both markers. -/
theorem c3_sanity_counterexample :
    containsB markerUnknownOption resV1.output = false
    ∧ containsB markerSignData resV1.output = false
    ∧ (VerifyServerTest.run cfgEx vsCase resV1 resDummy).verdict = Verdict.PASS
    ∧ (VerifyServerTest.run cfgEx vsCase resV1 resDummy).invocations.length = 1 := by
  refine ⟨by decide, by decide, by decide, by decide⟩

/-- C3 amended: only the client-credential cases run the sanity gate.
For any case evaluated by Test.run, if the unknown-option marker is
present in the searched transcript or the sign-data marker is absent
from it, the verdict is ENVIRONMENT_ERROR regardless of the exit code;
the server verification case performs no such check. -/
theorem c3_sanity_amended (cfg : Cfg) (t : TestCase) (k : String)
    (res : ProcResult) (hk : t.key = some k)
    (h : containsB markerUnknownOption
          (runProgramCore t.should_succeed res).output = true
        ∨ containsB markerSignData
          (runProgramCore t.should_succeed res).output = false) :
    (Test.run cfg t res).verdict = Verdict.ENVIRONMENT_ERROR := by
  rw [clientRun_verdict cfg t k res hk]
  unfold clientVerdict
  rcases h with h | h
  · simp [h]
  · by_cases h1 : containsB markerUnknownOption
        (runProgramCore t.should_succeed res).output = true
    · simp [h1]
    · simp [h1, h]

/-- C3 amended witness: a clean exit whose transcript shows the
unknown-option marker ends as ENVIRONMENT_ERROR. -/
theorem c3_sanity_amended_witness :
    caseEx.key = some "keys"
    ∧ containsB markerUnknownOption
        (runProgramCore caseEx.should_succeed resBad).output = true
    ∧ (Test.run cfgEx caseEx resBad).verdict = Verdict.ENVIRONMENT_ERROR :=
  ⟨rfl, by decide,
    c3_sanity_amended cfgEx caseEx "keys" resBad rfl (Or.inl (by decide))⟩

/-- C4: a case whose credential directory is absent is SKIPPED and makes
no subprocess invocation, in both the client-credential evaluation and
the server verification evaluation, whatever the subprocess API would
have done. -/
theorem c4_skip_no_subprocess (cfg : Cfg) (t : TestCase)
    (ht : t.key = none) (res1 res2 : ProcResult)
    (po po1 po2 : PopenOutcome) :
    (Test.run cfg t res1).verdict = Verdict.SKIPPED
    ∧ (Test.run cfg t res1).invocations = []
    ∧ (VerifyServerTest.run cfg t res1 res2).verdict = Verdict.SKIPPED
    ∧ (VerifyServerTest.run cfg t res1 res2).invocations = []
    ∧ Test.runE cfg t po = ExecResult.ok skippedTrace
    ∧ VerifyServerTest.runE cfg t po1 po2 = ExecResult.ok skippedTrace := by
  refine ⟨?_, ?_, ?_, ?_, ?_, ?_⟩ <;>
    simp [Test.run, VerifyServerTest.run, Test.runE, VerifyServerTest.runE,
      ht, skippedTrace]

/-- C4 witness at the concrete keyless case. -/
theorem c4_skip_no_subprocess_witness :
    caseNoKey.key = none
    ∧ (Test.run cfgEx caseNoKey resEx).verdict = Verdict.SKIPPED
    ∧ (Test.run cfgEx caseNoKey resEx).invocations = [] :=
  ⟨rfl,
    (c4_skip_no_subprocess cfgEx caseNoKey rfl resEx resEx
      PopenOutcome.startFailure PopenOutcome.startFailure
      PopenOutcome.startFailure).1,
    (c4_skip_no_subprocess cfgEx caseNoKey rfl resEx resEx
      PopenOutcome.startFailure PopenOutcome.startFailure
      PopenOutcome.startFailure).2.1⟩

/-- C5: when the searched first-stage transcript shows the generic
verification marker, the whole outcome is independent of the second
stage, exactly one invocation (the generic argument list) is made, the
verdict comes from the first-stage fail flag alone, and under the
subprocess API model the second Popen behaviour is never consulted. -/
theorem c5_stage_one_only (cfg : Cfg) (t : TestCase) (k : String)
    (res1 res2 res2' : ProcResult) (hk : t.key = some k)
    (hx : containsB markerVerifyOk
        (runProgramCore t.should_succeed res1).output = true) :
    VerifyServerTest.run cfg t res1 res2 = VerifyServerTest.run cfg t res1 res2'
    ∧ (VerifyServerTest.run cfg t res1 res2).invocations = [serverArgs cfg]
    ∧ (VerifyServerTest.run cfg t res1 res2).verdict =
        (if (runProgramCore t.should_succeed res1).fail
         then Verdict.FAIL else Verdict.PASS)
    ∧ (∀ po2 : PopenOutcome,
        VerifyServerTest.runE cfg t (PopenOutcome.terminates res1) po2 =
          ExecResult.ok (VerifyServerTest.run cfg t res1 res1)) := by
  refine ⟨?_, ?_, ?_, ?_⟩
  · unfold VerifyServerTest.run
    simp [hk, hx]
  · simp [VerifyServerTest.run, hk, hx]
  · simp [VerifyServerTest.run, hk, hx]
  · intro po2
    simp [VerifyServerTest.runE, hk, hx]

/-- C5 witness: with a first stage showing generic verification success
before the status line, two different second-stage results produce the
same trace, with one invocation and a PASS verdict. -/
theorem c5_stage_one_only_witness :
    containsB markerVerifyOk
        (runProgramCore vsCase.should_succeed resV1).output = true
    ∧ VerifyServerTest.run cfgEx vsCase resV1 resDummy =
        VerifyServerTest.run cfgEx vsCase resV1 resEx
    ∧ (VerifyServerTest.run cfgEx vsCase resV1 resDummy).invocations =
        [serverArgs cfgEx]
    ∧ VerifyServerTest.runE cfgEx vsCase (PopenOutcome.terminates resV1)
        PopenOutcome.startFailure =
        ExecResult.ok (VerifyServerTest.run cfgEx vsCase resV1 resV1) :=
  ⟨by decide,
    (c5_stage_one_only cfgEx vsCase "keys" resV1 resDummy resEx rfl
      (by decide)).1,
    (c5_stage_one_only cfgEx vsCase "keys" resV1 resDummy resEx rfl
      (by decide)).2.1,
    (c5_stage_one_only cfgEx vsCase "keys" resV1 resDummy resEx rfl
      (by decide)).2.2.2 PopenOutcome.startFailure⟩

/-- C6: in the second stage of the server verification case the verdict
is PASS only if both DTCP markers are found in the searched second
transcript; a missing remote-certificate marker forces FAIL with the
invalid-certificate message, a missing CVP2-bit marker forces FAIL with
the bit-not-set message, and the two messages are distinct. -/
theorem c6_stage_two_markers (cfg : Cfg) (t : TestCase) (k : String)
    (res1 res2 : ProcResult) (hk : t.key = some k)
    (hx : containsB markerVerifyOk
        (runProgramCore t.should_succeed res1).output = false) :
    ((VerifyServerTest.run cfg t res1 res2).verdict = Verdict.PASS →
        containsB markerRemoteCertOk
          (runProgramCore t.should_succeed res2).output = true
        ∧ containsB markerCvp2BitSet
          (runProgramCore t.should_succeed res2).output = true)
    ∧ (containsB markerRemoteCertOk
          (runProgramCore t.should_succeed res2).output = false →
        (VerifyServerTest.run cfg t res1 res2).verdict = Verdict.FAIL
        ∧ Msg.dtcpCertInvalid ∈ (VerifyServerTest.run cfg t res1 res2).msgs)
    ∧ (containsB markerCvp2BitSet
          (runProgramCore t.should_succeed res2).output = false →
        (VerifyServerTest.run cfg t res1 res2).verdict = Verdict.FAIL
        ∧ Msg.cvp2BitNotSet ∈ (VerifyServerTest.run cfg t res1 res2).msgs)
    ∧ Msg.dtcpCertInvalid ≠ Msg.cvp2BitNotSet := by
  refine ⟨?_, ?_, ?_, by decide⟩
  · intro hp
    by_cases hc : containsB markerRemoteCertOk
        (runProgramCore t.should_succeed res2).output = true
    · by_cases hb : containsB markerCvp2BitSet
          (runProgramCore t.should_succeed res2).output = true
      · exact ⟨hc, hb⟩
      · exfalso
        rw [serverRun_verdict cfg t k res1 res2 hk] at hp
        unfold serverVerdict at hp
        simp [hx, hc, hb] at hp
    · exfalso
      rw [serverRun_verdict cfg t k res1 res2 hk] at hp
      unfold serverVerdict at hp
      simp [hx, hc] at hp
  · intro hc
    constructor
    · rw [serverRun_verdict cfg t k res1 res2 hk]
      unfold serverVerdict
      simp [hx, hc]
    · unfold VerifyServerTest.run
      simp [hk, hx, hc]
  · intro hb
    constructor
    · rw [serverRun_verdict cfg t k res1 res2 hk]
      unfold serverVerdict
      simp [hx, hb]
    · unfold VerifyServerTest.run
      simp [hk, hx, hb]

/-- C6 witness: with a second-stage transcript lacking both DTCP markers
the verdict is FAIL and both distinct reason messages appear; the
hypotheses are evaluated on concrete transcripts. -/
theorem c6_stage_two_markers_witness :
    containsB markerVerifyOk
        (runProgramCore vsCase.should_succeed resW).output = false
    ∧ ((VerifyServerTest.run cfgEx vsCase resW resEx).verdict = Verdict.FAIL
        ∧ Msg.dtcpCertInvalid ∈ (VerifyServerTest.run cfgEx vsCase resW resEx).msgs)
    ∧ ((VerifyServerTest.run cfgEx vsCase resW resEx).verdict = Verdict.FAIL
        ∧ Msg.cvp2BitNotSet ∈ (VerifyServerTest.run cfgEx vsCase resW resEx).msgs) :=
  ⟨by decide,
    (c6_stage_two_markers cfgEx vsCase "keys" resW resEx rfl (by decide)).2.1
      (by decide),
    (c6_stage_two_markers cfgEx vsCase "keys" resW resEx rfl (by decide)).2.2.1
      (by decide)⟩

theorem runProgramCore_fail_of_some (s : Bool) (res : ProcResult)
    (l : Bytes) (h : firstStatusLine res.output = some l) :
    (runProgramCore s res).fail = (if res.returnCode ≠ 0 then s else !s) := by
  rw [runProgramCore_fail, h]
  simp

/-- C7: when a status line is present, every marker search happens on
the portion of the transcript strictly before it, so two runs agreeing
on that portion and on the exit code get the same verdict whatever
follows the status line; this holds for the client-credential
evaluation and for both stages of the server verification case. -/
theorem c7_pre_response_only (cfg : Cfg) (t : TestCase)
    (res res' res2 res2' : ProcResult)
    (hrc : res.returnCode = res'.returnCode)
    (hs : (firstStatusLine res.output).isSome = true)
    (hs' : (firstStatusLine res'.output).isSome = true)
    (hpre : preResponse res.output = preResponse res'.output)
    (hrc2 : res2.returnCode = res2'.returnCode)
    (hs2 : (firstStatusLine res2.output).isSome = true)
    (hs2' : (firstStatusLine res2'.output).isSome = true)
    (hpre2 : preResponse res2.output = preResponse res2'.output) :
    (Test.run cfg t res).verdict = (Test.run cfg t res').verdict
    ∧ (VerifyServerTest.run cfg t res res2).verdict =
        (VerifyServerTest.run cfg t res' res2').verdict := by
  obtain ⟨l, hl⟩ := Option.isSome_iff_exists.mp hs
  obtain ⟨l', hl'⟩ := Option.isSome_iff_exists.mp hs'
  have ho : (runProgramCore t.should_succeed res).output =
      (runProgramCore t.should_succeed res').output := by
    rw [runProgramCore_output, runProgramCore_output, hpre]
  have hf : (runProgramCore t.should_succeed res).fail =
      (runProgramCore t.should_succeed res').fail := by
    rw [runProgramCore_fail_of_some _ _ _ hl,
      runProgramCore_fail_of_some _ _ _ hl', hrc]
  have ho2 : (runProgramCore t.should_succeed res2).output =
      (runProgramCore t.should_succeed res2').output := by
    rw [runProgramCore_output, runProgramCore_output, hpre2]
  constructor
  · cases hkk : t.key with
    | none => simp [Test.run, hkk]
    | some k =>
        rw [clientRun_verdict cfg t k res hkk, clientRun_verdict cfg t k res' hkk]
        simp only [clientVerdict]
        rw [ho, hf]
  · cases hkk : t.key with
    | none => simp [VerifyServerTest.run, hkk]
    | some k =>
        rw [serverRun_verdict cfg t k res res2 hkk,
          serverRun_verdict cfg t k res' res2' hkk]
        simp only [serverVerdict]
        rw [ho, hf, ho2]

/-- C7 witness: transcripts extended after the status line with spoofed
marker text give the same verdicts as the unextended ones; in
particular a transcript whose raw bytes hold the unknown-option marker
after the status line still renders PASS. -/
theorem c7_pre_response_only_witness :
    preResponse resW.output = preResponse resC7b.output
    ∧ containsB markerUnknownOption resC7b.output = true
    ∧ (Test.run cfgEx caseW resW).verdict = (Test.run cfgEx caseW resC7b).verdict
    ∧ (VerifyServerTest.run cfgEx vsCase resW resS2).verdict =
        (VerifyServerTest.run cfgEx vsCase resC7b resC72b).verdict :=
  ⟨by decide, by decide,
    (c7_pre_response_only cfgEx caseW resW resC7b resS2 resC72b rfl
      (by decide) (by decide) (by decide) rfl (by decide) (by decide)
      (by decide)).1,
    (c7_pre_response_only cfgEx vsCase resW resC7b resS2 resC72b rfl
      (by decide) (by decide) (by decide) rfl (by decide) (by decide)
      (by decide)).2⟩

/-- C8 evaluation: in the source, communicate is called with no timeout
argument and the WAIT_TIME bound is passed to wait only after
communicate has returned, so the budget is never enforced: a subprocess
that never terminates blocks the harness forever (no termination of the
subprocess, no sentinel exit code, no timed-out flag), in both case
evaluations; and a trace is only ever produced from the exit status the
process itself returned. -/
theorem c8_wait_budget_not_enforced :
    Test.runE cfgEx caseEx PopenOutcome.neverTerminates =
      ExecResult.blockedForever
    ∧ VerifyServerTest.runE cfgEx vsCase PopenOutcome.neverTerminates
        (PopenOutcome.terminates resDummy) = ExecResult.blockedForever
    ∧ Test.runE cfgEx caseEx (PopenOutcome.terminates resEx) =
        ExecResult.ok (Test.run cfgEx caseEx resEx) :=
  ⟨rfl, rfl, rfl⟩

/-- C9 counterexample: a suite whose first case cannot start its
subprocess.  The Popen exception propagates out of Tester.run_tests, so
no list of case results is produced at all: the failing case gets no
ENVIRONMENT_ERROR verdict and the second case never runs. -/
theorem c9_start_failure_counterexample :
    runSuite cfgEx suiteEx = ExecResult.uncaughtException := rfl

/-- C9 amended: when the client subprocess of a non-skipped case fails
to start, the exception is not caught anywhere: the case produces no
verdict and the suite stops, whatever cases remain.  This holds for
client-credential cases and for the server verification case. -/
theorem c9_start_failure_amended (cfg : Cfg) (t : TestCase) (k : String)
    (hk : t.key = some k) (po2 : PopenOutcome)
    (rest : List (SuiteCase × PopenOutcome × PopenOutcome)) :
    runSuite cfg ((SuiteCase.client t, PopenOutcome.startFailure, po2) :: rest)
      = ExecResult.uncaughtException
    ∧ runSuite cfg
        ((SuiteCase.verifyServer t, PopenOutcome.startFailure, po2) :: rest)
      = ExecResult.uncaughtException := by
  constructor <;>
    simp [runSuite, runCaseE, Test.runE, VerifyServerTest.runE, hk]

/-- C9 amended witness at a concrete one-case suite. -/
theorem c9_start_failure_amended_witness :
    caseEx.key = some "keys"
    ∧ runSuite cfgEx
        [(SuiteCase.client caseEx, PopenOutcome.startFailure,
          PopenOutcome.startFailure)] = ExecResult.uncaughtException
    ∧ runSuite cfgEx
        [(SuiteCase.verifyServer caseEx, PopenOutcome.startFailure,
          PopenOutcome.startFailure)] = ExecResult.uncaughtException :=
  ⟨rfl,
    (c9_start_failure_amended cfgEx caseEx "keys" rfl
      PopenOutcome.startFailure []).1,
    (c9_start_failure_amended cfgEx caseEx "keys" rfl
      PopenOutcome.startFailure []).2⟩

/-- C10: in the second stage of the server verification case, the fail
flag returned by the second run is discarded (the source binds it to a
never-read variable named return_code): the verdict is exactly
determined by the first-stage fail flag and the two markers searched in
the second transcript, and changing the exit code of the second run
while keeping its output does not change the verdict. -/
theorem c10_stage_two_fail_discarded (cfg : Cfg) (t : TestCase) (k : String)
    (res1 res2 : ProcResult) (hk : t.key = some k)
    (hx : containsB markerVerifyOk
        (runProgramCore t.should_succeed res1).output = false) :
    (VerifyServerTest.run cfg t res1 res2).verdict =
      (if ((runProgramCore t.should_succeed res1).fail
            || !containsB markerRemoteCertOk
                (runProgramCore t.should_succeed res2).output)
          || !containsB markerCvp2BitSet
                (runProgramCore t.should_succeed res2).output
       then Verdict.FAIL else Verdict.PASS)
    ∧ (∀ rc' : Int,
        (VerifyServerTest.run cfg t res1 (ProcResult.mk rc' res2.output)).verdict
          = (VerifyServerTest.run cfg t res1 res2).verdict) := by
  constructor
  · rw [serverRun_verdict cfg t k res1 res2 hk]
    simp only [serverVerdict]
    simp [hx]
  · intro rc'
    have hout : (runProgramCore t.should_succeed
        (ProcResult.mk rc' res2.output)).output =
        (runProgramCore t.should_succeed res2).output := by
      rw [runProgramCore_output, runProgramCore_output]
    rw [serverRun_verdict cfg t k res1 (ProcResult.mk rc' res2.output) hk,
      serverRun_verdict cfg t k res1 res2 hk]
    simp only [serverVerdict]
    rw [hout]

/-- C10 witness: with a concrete stage-two transcript holding both
markers, exit codes 7 and 0 for the second run yield the same verdict,
and the verdict matches the characterization. -/
theorem c10_stage_two_fail_discarded_witness :
    containsB markerVerifyOk
        (runProgramCore vsCase.should_succeed resW).output = false
    ∧ (VerifyServerTest.run cfgEx vsCase resW resS2).verdict =
        (if ((runProgramCore vsCase.should_succeed resW).fail
              || !containsB markerRemoteCertOk
                  (runProgramCore vsCase.should_succeed resS2).output)
            || !containsB markerCvp2BitSet
                  (runProgramCore vsCase.should_succeed resS2).output
         then Verdict.FAIL else Verdict.PASS)
    ∧ (VerifyServerTest.run cfgEx vsCase resW
          (ProcResult.mk 7 resS2.output)).verdict =
        (VerifyServerTest.run cfgEx vsCase resW resS2).verdict :=
  ⟨by decide,
    (c10_stage_two_fail_discarded cfgEx vsCase "keys" resW resS2 rfl
      (by decide)).1,
    (c10_stage_two_fail_discarded cfgEx vsCase "keys" resW resS2 rfl
      (by decide)).2 7⟩
